import Mathlib

/-!
Session/credential lifecycle management: verification of the auth subsystem.

Shallow embedding of the session-management code of the repository:

* `AuthProvider` in the React auth context (file `src/unnamed/part_000`):
  the pieces of client state it manages (`localStorage` keys `access_token`
  and `refresh_token`, the axios default `Authorization` header, the React
  state `user` / `isLoading` / `isAuthenticated`, and `router.push`
  navigation), and its four operations `login`, `register`, `logout`,
  `refreshToken`, plus the mount-time `initAuth` effect.
* The NextAuth `jwt` callback of
  `src/frontend/src/app/api/auth/[...nextauth]/route.ts`.
* An `OAuthRedirectCoordinator` modelled from the specification (its
  implementation — the backend OAuth handler that the `signIn` callback
  redirects to — is not part of the available sources).

The concurrency model follows the code's actual execution model: a
single-threaded cooperative event loop in which the only suspension points
are the `await`ed axios network calls.  Each operation is therefore split
into the atomic segments between its `await`s, and a concurrent scenario is
an explicit interleaving of those segments.
-/

namespace Auth

/-- Minimal user profile, as in the `User` interface of `part_000`
(lines 6–11). -/
structure User where
  id : String
  email : String
  name : String
  role : String
deriving DecidableEq, Repr

/-- The persisted store: the two `localStorage` keys the auth context uses,
`access_token` and `refresh_token`.  `none` models an absent key. -/
structure Store where
  access_token : Option String
  refresh_token : Option String
deriving DecidableEq, Repr

/-- Clearing the store removes both keys (the pair of `localStorage.removeItem`
calls that appears in `logout` and in the `refreshToken` catch block). -/
def Store.clear : Store := ⟨none, none⟩

/-- The client-side state of the `AuthProvider`:
* `store` — the persisted `localStorage` snapshot;
* `authHeader` — `axios.defaults.headers.common.Authorization`;
* `user`, `isLoading`, `isAuthenticated` — the React state hooks;
* `route` — the last `router.push` target (`none` before any push). -/
structure AuthState where
  store : Store
  authHeader : String
  user : Option User
  isLoading : Bool
  isAuthenticated : Bool
  route : Option String
deriving DecidableEq, Repr

/-- Error kinds the refresh endpoint can fail with (axios rejection). -/
inductive RefreshErr where
  | refreshTokenInvalid
  | networkError
deriving DecidableEq, Repr

/-- Result of the network call `POST /api/auth/refresh`.  On success the
response body carries `access_token`, `refresh_token` and `user`
(the code of `part_000` destructures only `access_token` and `user`). -/
inductive RefreshResult where
  | success (access_token : String) (refresh_token : String) (user : User)
  | failure (e : RefreshErr)
deriving DecidableEq, Repr

/-- How a `refreshToken()` promise settles:
`ok` — resolved; `errMsg m` — rejected with `new Error(m)` thrown locally;
`errNet e` — rejected with the network error rethrown by the catch block. -/
inductive RefreshOutcome where
  | ok
  | errMsg (msg : String)
  | errNet (e : RefreshErr)
deriving DecidableEq, Repr

/-- The catch block of `refreshToken` (`part_000` lines 173–184): remove both
tokens, blank the auth header, set `user` to `null`, set `isAuthenticated`
to `false`, and `router.push('/login')`.  (The error is then rethrown,
which the callers of `refreshTokenRun` record in the outcome.) -/
def refreshCatch (s : AuthState) : AuthState :=
  { s with
    store := Store.clear
    authHeader := ""
    user := none
    isAuthenticated := false
    route := some "/login" }

/-- The success path of `refreshToken` after the network call resolves
(`part_000` lines 163–172): store the new `access_token`, update the auth
header, set `user` to the returned profile.  The response's rotated
`refresh_token` is **not** read and the stored `refresh_token` key is left
untouched; `isAuthenticated` and `isLoading` are not modified. -/
def refreshApply (s : AuthState) (access_token : String) (userData : User) :
    AuthState :=
  { s with
    store := { s.store with access_token := some access_token }
    authHeader := "Bearer " ++ access_token
    user := some userData }

/-- Whole-operation embedding of `refreshToken` (`part_000` lines 151–186)
for a single caller.  `net` maps the refresh token sent in the request body
to the network outcome.  Returns the final state and how the promise
settled. -/
def refreshTokenRun (s : AuthState) (net : String → RefreshResult) :
    AuthState × RefreshOutcome :=
  match s.store.refresh_token with
  | none => (refreshCatch s, .errMsg "No refresh token available")
  | some rt =>
    match net rt with
    | .success a _r u => (refreshApply s a u, .ok)
    | .failure e => (refreshCatch s, .errNet e)

end Auth

namespace Auth

/-! Theorems for claims C2, C10 (single-caller refresh behaviour). -/

/-- Claim C2: Every execution of `refreshToken()` whose network refresh call
fails (`RefreshTokenInvalid` or `NetworkError`) ends with both persisted
tokens removed, `user = null`, `isAuthenticated = false`, and a redirect to
`/login` — regardless of who (if anyone) initiated the refresh. -/
theorem refresh_network_failure_clears_session
    (s : AuthState) (net : String → RefreshResult) (rt : String)
    (e : RefreshErr)
    (hrt : s.store.refresh_token = some rt)
    (hnet : net rt = .failure e) :
    let s' := (refreshTokenRun s net).1
    s'.store.access_token = none ∧ s'.store.refresh_token = none ∧
      s'.user = none ∧ s'.isAuthenticated = false ∧
      s'.route = some "/login" ∧
      (refreshTokenRun s net).2 = .errNet e := by
  simp [refreshTokenRun, hrt, hnet, refreshCatch, Store.clear]

/-- Witness for `refresh_network_failure_clears_session` at a concrete
authenticated state whose refresh call fails with a network error. -/
theorem refresh_network_failure_clears_session_witness :
    let s : AuthState :=
      { store := ⟨some "acc0", some "ref0"⟩, authHeader := "Bearer acc0"
        user := some ⟨"u1", "a@b.com", "Ann", "user"⟩
        isLoading := false, isAuthenticated := true, route := none }
    let net : String → RefreshResult := fun _ => .failure .networkError
    let s' := (refreshTokenRun s net).1
    s'.store.access_token = none ∧ s'.store.refresh_token = none ∧
      s'.user = none ∧ s'.isAuthenticated = false ∧
      s'.route = some "/login" ∧
      (refreshTokenRun s net).2 = .errNet .networkError :=
  refresh_network_failure_clears_session _ _ "ref0" .networkError rfl rfl

/-- Claim C10: A `refreshToken()` call made with no refresh token in storage
is not a silent no-op: the promise rejects with the error message
`No refresh token available`, both stored tokens are cleared, `user`
becomes `null`, `isAuthenticated` becomes `false`, and a redirect to
`/login` is signalled. -/
theorem refresh_without_token_rejects_and_clears
    (s : AuthState) (net : String → RefreshResult)
    (h : s.store.refresh_token = none) :
    (refreshTokenRun s net).2 = .errMsg "No refresh token available" ∧
      (refreshTokenRun s net).1.store.access_token = none ∧
      (refreshTokenRun s net).1.store.refresh_token = none ∧
      (refreshTokenRun s net).1.user = none ∧
      (refreshTokenRun s net).1.isAuthenticated = false ∧
      (refreshTokenRun s net).1.route = some "/login" := by
  simp [refreshTokenRun, h, refreshCatch, Store.clear]

/-- Witness for `refresh_without_token_rejects_and_clears`: a state holding
an access token but no refresh token. -/
theorem refresh_without_token_rejects_and_clears_witness :
    let s : AuthState :=
      { store := ⟨some "acc0", none⟩, authHeader := "Bearer acc0"
        user := some ⟨"u1", "a@b.com", "Ann", "user"⟩
        isLoading := false, isAuthenticated := true, route := none }
    let net : String → RefreshResult := fun _ => .failure .networkError
    (refreshTokenRun s net).2 = .errMsg "No refresh token available" ∧
      (refreshTokenRun s net).1.store.access_token = none ∧
      (refreshTokenRun s net).1.store.refresh_token = none ∧
      (refreshTokenRun s net).1.user = none ∧
      (refreshTokenRun s net).1.isAuthenticated = false ∧
      (refreshTokenRun s net).1.route = some "/login" :=
  refresh_without_token_rejects_and_clears _ _ rfl

end Auth

namespace Auth

/-! Logout (`part_000` lines 127–148) and the event-loop interleavings.

The code runs on a single-threaded cooperative event loop; the only
suspension points are the `await`ed axios calls.  `refreshToken` therefore
consists of two atomic segments: everything up to and including issuing the
network request (`refreshPhase1`), and the continuation run when that
request settles (`refreshPhase2`).  `logout`'s `finally` block runs as one
atomic segment when its own network call settles. -/

/-- The `finally` block of `logout` (`part_000` lines 133–147): clear both
tokens, blank the auth header, set `user` to `null` and `isAuthenticated`
to `false`, and `router.push('/')`.  It runs whether or not the logout
network call succeeded. -/
def logoutFinally (s : AuthState) : AuthState :=
  { s with
    store := Store.clear
    authHeader := ""
    user := none
    isAuthenticated := false
    route := some "/" }

/-- Whole-operation embedding of `logout`: the `try` block only performs the
best-effort network call, whose outcome `_netOk` is logged and otherwise
ignored; the `finally` block then runs unconditionally. -/
def logoutRun (s : AuthState) (_netOk : Bool) : AuthState :=
  logoutFinally s

/-- First atomic segment of `refreshToken`: read the stored refresh token.
If absent, the thrown error sends control straight to the catch block with
no network call (`none` in the second component); otherwise the network
request is issued with the stored token (`some rt`) and the operation
suspends. -/
def refreshPhase1 (s : AuthState) : AuthState × Option String :=
  match s.store.refresh_token with
  | none => (refreshCatch s, none)
  | some rt => (s, some rt)

/-- Second atomic segment of `refreshToken`: the continuation run when the
network request issued by `refreshPhase1` settles. -/
def refreshPhase2 (s : AuthState) (res : RefreshResult) : AuthState :=
  match res with
  | .success a _r u => refreshApply s a u
  | .failure _ => refreshCatch s

/-- Sanity: the two-segment decomposition composes to the single-caller
run when no other task interleaves. -/
theorem refreshPhases_compose (s : AuthState) (net : String → RefreshResult) :
    (refreshTokenRun s net).1 =
      (match (refreshPhase1 s).2 with
       | some rt => refreshPhase2 (refreshPhase1 s).1 (net rt)
       | none => (refreshPhase1 s).1) := by
  cases h : s.store.refresh_token with
  | none => simp [refreshTokenRun, refreshPhase1, h]
  | some rt =>
    cases hr : net rt with
    | success a r u => simp [refreshTokenRun, refreshPhase1, refreshPhase2, h, hr]
    | failure e => simp [refreshTokenRun, refreshPhase1, refreshPhase2, h, hr]

/-- Two logically concurrent `refreshToken()` calls: both run their
pre-suspension segment before either network response arrives (the
interleaving produced when two components trigger a refresh in the same
event-loop turn), then the responses are applied in issue order.  Returns
the final state and the number of network refresh calls issued. -/
def twoConcurrentRefreshes (s : AuthState) (net : String → RefreshResult) :
    AuthState × Nat :=
  let p1 := refreshPhase1 s
  let p2 := refreshPhase1 p1.1
  let calls := (if p1.2.isSome then 1 else 0) + (if p2.2.isSome then 1 else 0)
  let s3 := match p1.2 with
            | some rt => refreshPhase2 p2.1 (net rt)
            | none => p2.1
  let s4 := match p2.2 with
            | some rt => refreshPhase2 s3 (net rt)
            | none => s3
  (s4, calls)

/-- `logout()` runs to completion while a `refreshToken()` network call is
still in flight; the refresh response arrives afterwards and its
continuation runs on the post-logout state. -/
def logoutDuringRefresh (s : AuthState) (logoutNetOk : Bool)
    (net : String → RefreshResult) : AuthState :=
  let p := refreshPhase1 s
  let s2 := logoutRun p.1 logoutNetOk
  match p.2 with
  | some rt => refreshPhase2 s2 (net rt)
  | none => s2

/-- A concrete signed-in user, state and refresh response used by the
concrete counterexamples and witnesses below. -/
def demoUser : User := ⟨"u1", "a@b.com", "Ann", "user"⟩

/-- A concrete authenticated client state: both tokens stored, profile
loaded. -/
def demoAuthed : AuthState :=
  { store := ⟨some "acc0", some "ref0"⟩
    authHeader := "Bearer acc0"
    user := some demoUser
    isLoading := false
    isAuthenticated := true
    route := none }

/-- A network stub whose refresh endpoint always succeeds, answering with a
fresh access token, a rotated refresh token and the user profile. -/
def demoNet : String → RefreshResult :=
  fun _ => .success "acc1" "ref1" demoUser

end Auth

namespace Auth

/-! Theorems for claims C8, C1, C3. -/

/-- Claim C8: Every execution of `logout()` clears the locally stored tokens,
sets `user` to `null` and `isAuthenticated` to `false`, whether the
network logout request succeeded (`netOk = true`) or failed
(`netOk = false`): the `finally` block runs unconditionally, so both
outcomes produce the same local state. -/
theorem logout_local_clear_always_wins (s : AuthState) (netOk : Bool) :
    (logoutRun s netOk).store.access_token = none ∧
      (logoutRun s netOk).store.refresh_token = none ∧
      (logoutRun s netOk).user = none ∧
      (logoutRun s netOk).isAuthenticated = false ∧
      logoutRun s true = logoutRun s false := by
  simp [logoutRun, logoutFinally, Store.clear]

/-- Claim C1, counterexample: Two concurrent `refreshToken()` calls issued
from an authenticated state each issue their own network refresh call:
the run makes 2 network calls, not exactly 1 — there is no single-flight
deduplication in the code. -/
theorem concurrent_refreshes_not_deduplicated :
    (twoConcurrentRefreshes demoAuthed demoNet).2 = 2 ∧
      ¬ (twoConcurrentRefreshes demoAuthed demoNet).2 = 1 := by
  decide

/-- Claim C1, amended: For two concurrent `refreshToken()` calls issued while
a refresh token is stored, exactly two network refresh calls are made —
one per caller; no call is deduplicated into the other. -/
theorem concurrent_refreshes_one_call_each
    (s : AuthState) (rt : String) (net : String → RefreshResult)
    (h : s.store.refresh_token = some rt) :
    (twoConcurrentRefreshes s net).2 = 2 := by
  simp [twoConcurrentRefreshes, refreshPhase1, h]

/-- Witness for `concurrent_refreshes_one_call_each` at the concrete
authenticated state. -/
theorem concurrent_refreshes_one_call_each_witness :
    (twoConcurrentRefreshes demoAuthed demoNet).2 = 2 :=
  concurrent_refreshes_one_call_each demoAuthed "ref0" demoNet rfl

/-- Claim C3, counterexample: `logout()` completes while a `refreshToken()`
network call is in flight; when the refresh later resolves successfully its
result is **not** discarded: the new access token is written back into the
persisted store, so the store does not remain empty. -/
theorem stale_refresh_after_logout_repopulates_store :
    (logoutDuringRefresh demoAuthed true demoNet).store.access_token
        = some "acc1" ∧
      ¬ (logoutDuringRefresh demoAuthed true demoNet).store.access_token
        = none := by
  decide

/-- Claim C3, amended: If `logout()` completes while a `refreshToken()`
network call is in flight and that refresh later resolves successfully,
`isAuthenticated` does remain `false` (the success continuation never sets
it) and the refresh token stays cleared, but the stale response is applied:
the new access token is written into the store and `user` is restored to
the returned profile — there is no stale-response guard. -/
theorem logout_during_refresh_amended
    (s : AuthState) (rt a r : String) (u : User) (ok : Bool)
    (net : String → RefreshResult)
    (hrt : s.store.refresh_token = some rt)
    (hnet : net rt = .success a r u) :
    let f := logoutDuringRefresh s ok net
    f.isAuthenticated = false ∧ f.store.access_token = some a ∧
      f.store.refresh_token = none ∧ f.user = some u := by
  simp [logoutDuringRefresh, refreshPhase1, hrt, hnet, logoutRun,
    logoutFinally, refreshPhase2, refreshApply, Store.clear]

/-- Witness for `logout_during_refresh_amended` at the concrete state and
network stub. -/
theorem logout_during_refresh_amended_witness :
    let f := logoutDuringRefresh demoAuthed true demoNet
    f.isAuthenticated = false ∧ f.store.access_token = some "acc1" ∧
      f.store.refresh_token = none ∧ f.user = some demoUser :=
  logout_during_refresh_amended demoAuthed "ref0" "acc1" "ref1" demoUser
    true demoNet rfl rfl

end Auth

namespace Auth

/-! Login (`part_000` lines 62–91), the persisted-session layout, and the
mount-time `initAuth` effect (lines 34–59). -/

/-- Result of the network call `POST /api/auth/login` (and of
`POST /api/auth/register`, whose handling in the code is identical):
on success the response body carries `access_token`, `refresh_token` and
`user`; `failure` is any axios rejection (invalid credentials, network
error, ...), which the code rethrows to the caller. -/
inductive LoginResult where
  | success (access_token : String) (refresh_token : String) (user : User)
  | failure
deriving DecidableEq, Repr

/-- A full client session as produced by a successful login: the token pair
plus the user profile returned by the endpoint. -/
structure Session where
  accessToken : String
  refreshToken : String
  user : User
deriving DecidableEq, Repr

/-- What the code persists of a session: the two `localStorage.setItem`
calls of `login` (`part_000` lines 73–74; `register` lines 106–107 are
identical) write only the two tokens.  The user profile is never written
to the store. -/
def persistSession (sess : Session) : Store :=
  ⟨some sess.accessToken, some sess.refreshToken⟩

/-- Whole-operation embedding of `login` (`part_000` lines 62–91):
`setIsLoading(true)`, then the network call; on success persist both
tokens, set the auth header, set `user`, set `isAuthenticated` and navigate
to `/dashboard`; on failure rethrow; either way the `finally` block sets
`isLoading` to `false`.  The second component records whether the promise
resolved. -/
def loginRun (s : AuthState) (res : LoginResult) : AuthState × Bool :=
  match res with
  | .success a r u =>
    ({ s with
        store := persistSession ⟨a, r, u⟩
        authHeader := "Bearer " ++ a
        user := some u
        isAuthenticated := true
        route := some "/dashboard"
        isLoading := false }, true)
  | .failure => ({ s with isLoading := false }, false)

/-- Mount-time initial React state (`part_000` lines 28–30): `user = null`,
`isLoading = true`, `isAuthenticated = false`; no navigation and an empty
axios default header.  `st` is whatever `localStorage` holds from a
previous page load. -/
def mountState (st : Store) : AuthState :=
  { store := st
    authHeader := ""
    user := none
    isLoading := true
    isAuthenticated := false
    route := none }

/-- Embedding of the mount-time `initAuth` effect (`part_000` lines 34–59):
read the `access_token` key once; if present, set the auth header and
await `refreshToken()` — on success set `isAuthenticated`, on rejection
remove both tokens and blank the header — and finally set `isLoading` to
`false`.  Returns the final state, the number of reads of the
`access_token` key, and the number of `refreshToken()` invocations. -/
def initAuthRun (s : AuthState) (net : String → RefreshResult) :
    AuthState × Nat × Nat :=
  match s.store.access_token with
  | some t =>
    let s1 := { s with authHeader := "Bearer " ++ t }
    let r := refreshTokenRun s1 net
    match r.2 with
    | .ok => ({ r.1 with isAuthenticated := true, isLoading := false }, 1, 1)
    | _ =>
      ({ r.1 with store := Store.clear, authHeader := "", isLoading := false },
        1, 1)
  | none => ({ s with isLoading := false }, 1, 0)

end Auth

namespace Auth

/-! Theorems for claims C5, C9, C4. -/

/-- Claim C5, counterexample: a successful refresh whose response carries
the rotated refresh token `ref1` leaves the old token `ref0` in the store —
the rotated refresh token of the response is discarded, so the persisted
session does not hold the new refresh token. -/
theorem refresh_discards_rotated_token :
    (refreshTokenRun demoAuthed demoNet).1.store.refresh_token
        = some "ref0" ∧
      ¬ (refreshTokenRun demoAuthed demoNet).1.store.refresh_token
        = some "ref1" := by
  decide

/-- Claim C5, amended: after every successful refresh the store holds the
new access token and the state holds the new user, but the stored refresh
token is still the old one that was just sent (and, under rotation,
invalidated server-side): the rotated token in the response is never
persisted. -/
theorem refresh_success_keeps_old_refresh_token
    (s : AuthState) (rt a r : String) (u : User)
    (net : String → RefreshResult)
    (hrt : s.store.refresh_token = some rt)
    (hnet : net rt = .success a r u) :
    let s' := (refreshTokenRun s net).1
    s'.store.access_token = some a ∧ s'.user = some u ∧
      s'.store.refresh_token = some rt ∧
      (refreshTokenRun s net).2 = .ok := by
  simp [refreshTokenRun, hrt, hnet, refreshApply]

/-- Witness for `refresh_success_keeps_old_refresh_token` at the concrete
authenticated state and the always-successful network stub. -/
theorem refresh_success_keeps_old_refresh_token_witness :
    let s' := (refreshTokenRun demoAuthed demoNet).1
    s'.store.access_token = some "acc1" ∧ s'.user = some demoUser ∧
      s'.store.refresh_token = some "ref0" ∧
      (refreshTokenRun demoAuthed demoNet).2 = .ok :=
  refresh_success_keeps_old_refresh_token demoAuthed "ref0" "acc1" "ref1"
    demoUser demoNet rfl rfl

/-- Claim C9, counterexample: no load function over the persisted store can
return a session deep-equal to the one saved, because `persistSession`
writes only the token pair: two sessions with the same tokens but distinct
user profiles persist to the same store record, so the user profile cannot
be restored from the store. -/
theorem store_roundtrip_cannot_restore_user :
    ¬ ∃ load : Store → Option Session,
        ∀ sess : Session, load (persistSession sess) = some sess := by
  rintro ⟨load, h⟩
  have h1 := h ⟨"a", "r", ⟨"u1", "e1", "n1", "x"⟩⟩
  have h2 := h ⟨"a", "r", ⟨"u2", "e2", "n2", "x"⟩⟩
  have heq : (⟨"a", "r", ⟨"u1", "e1", "n1", "x"⟩⟩ : Session)
      = ⟨"a", "r", ⟨"u2", "e2", "n2", "x"⟩⟩ :=
    Option.some.inj (h1.symm.trans h2)
  exact absurd heq (by decide)

/-- Claim C9, amended: only the token pair round-trips through the store:
saving a session persists exactly its access and refresh tokens, and both
are recovered by a load; the user profile (and any other session field) is
not persisted and must be re-fetched over the network on the next mount. -/
theorem persisted_tokens_roundtrip (sess : Session) :
    (persistSession sess).access_token = some sess.accessToken ∧
      (persistSession sess).refresh_token = some sess.refreshToken := by
  simp [persistSession]

/-- Claim C4: on mount, `initAuth` reads the `access_token` key exactly
once; when a token is present it invokes `refreshToken()` exactly once
(and never otherwise); `isLoading` is `false` afterwards in every case;
and when the stored session's refresh fails (for example with a network
error), the final state is logged out: `isAuthenticated = false` with the
store cleared and no user. -/
theorem mount_single_load_single_refresh
    (st : Store) (net : String → RefreshResult) :
    let r := initAuthRun (mountState st) net
    r.2.1 = 1 ∧
      (st.access_token.isSome → r.2.2 = 1) ∧
      (st.access_token = none → r.2.2 = 0) ∧
      r.1.isLoading = false ∧
      (∀ t rt e, st.access_token = some t → st.refresh_token = some rt →
        net rt = .failure e →
        r.1.isAuthenticated = false ∧ r.1.store = Store.clear ∧
          r.1.user = none) := by
  intro r
  cases hat : st.access_token with
  | none =>
    refine ⟨?_, ?_, ?_, ?_, ?_⟩ <;>
      simp [r, initAuthRun, mountState, hat]
  | some t =>
    refine ⟨?_, ?_, ?_, ?_, ?_⟩
    · cases hrt : st.refresh_token with
      | none => simp [r, initAuthRun, mountState, hat, refreshTokenRun, hrt]
      | some rt =>
        cases hnet : net rt with
        | success a rr u =>
          simp [r, initAuthRun, mountState, hat, refreshTokenRun, hrt, hnet]
        | failure e =>
          simp [r, initAuthRun, mountState, hat, refreshTokenRun, hrt, hnet]
    · intro _
      cases hrt : st.refresh_token with
      | none => simp [r, initAuthRun, mountState, hat, refreshTokenRun, hrt]
      | some rt =>
        cases hnet : net rt with
        | success a rr u =>
          simp [r, initAuthRun, mountState, hat, refreshTokenRun, hrt, hnet]
        | failure e =>
          simp [r, initAuthRun, mountState, hat, refreshTokenRun, hrt, hnet]
    · intro hnone
      exact absurd hnone (by simp)
    · cases hrt : st.refresh_token with
      | none => simp [r, initAuthRun, mountState, hat, refreshTokenRun, hrt]
      | some rt =>
        cases hnet : net rt with
        | success a rr u =>
          simp [r, initAuthRun, mountState, hat, refreshTokenRun, hrt, hnet]
        | failure e =>
          simp [r, initAuthRun, mountState, hat, refreshTokenRun, hrt, hnet]
    · intro t' rt e ht' hrt hnet
      simp [r, initAuthRun, mountState, hat, refreshTokenRun, hrt, hnet,
        refreshCatch, Store.clear]

/-- Witness for `mount_single_load_single_refresh`: a persisted session
whose mount-time refresh fails with a network error leaves the client
logged out with loading finished. -/
theorem mount_single_load_single_refresh_witness :
    let st : Store := ⟨some "acc0", some "ref0"⟩
    let net : String → RefreshResult := fun _ => .failure .networkError
    let r := initAuthRun (mountState st) net
    r.2.1 = 1 ∧ r.2.2 = 1 ∧ r.1.isLoading = false ∧
      r.1.isAuthenticated = false ∧ r.1.store = Store.clear ∧
      r.1.user = none := by
  have h := mount_single_load_single_refresh ⟨some "acc0", some "ref0"⟩
    (fun _ => .failure .networkError)
  refine ⟨h.1, h.2.1 (by decide), h.2.2.2.1, ?_, ?_, ?_⟩
  · exact (h.2.2.2.2 "acc0" "ref0" .networkError rfl rfl rfl).1
  · exact (h.2.2.2.2 "acc0" "ref0" .networkError rfl rfl rfl).2.1
  · exact (h.2.2.2.2 "acc0" "ref0" .networkError rfl rfl rfl).2.2

end Auth

namespace NextAuthRoute

/-! The `jwt` callback of the NextAuth route
(`src/frontend/src/app/api/auth/[...nextauth]/route.ts`, lines 90–128).
Time is explicit: the callback evaluates `Date.now()` twice in the expiry
check (once to build `tokenExpiry`, once in the comparison), modelled by
the two instants `now1` and `now2` in milliseconds. -/

/-- The NextAuth JWT token record, with the fields the `jwt` callback reads
and writes. -/
structure JwtToken where
  accessToken : Option String
  refreshToken : Option String
  csrfToken : Option String
  id : Option String
  email : Option String
  name : Option String
  role : Option String
  permissions : List String
  provider : Option String
  error : Option String
deriving DecidableEq, Repr

/-- The `user` object handed to the `jwt` callback on initial sign-in by the
credentials provider's `authorize` (route lines 33–40): the backend profile
spread together with the token triple. -/
structure SignInUser where
  id : String
  email : String
  name : String
  role : String
  permissions : List String
  accessToken : String
  refreshToken : String
  csrfToken : String
deriving DecidableEq, Repr

/-- The `account` object handed to the `jwt` callback on initial sign-in. -/
structure Account where
  provider : String
deriving DecidableEq, Repr

/-- Result of the `POST /api/auth/refresh` call made inside the `jwt`
callback: on success the response carries `access_token`, `refresh_token`
and `csrf_token`; `failure` is an axios rejection. -/
inductive RouteRefreshResult where
  | success (access_token : String) (refresh_token : String)
      (csrf_token : String)
  | failure
deriving DecidableEq, Repr

/-- Embedding of the `jwt` callback (route lines 90–128).  `now1` is the
`Date.now()` used to build `tokenExpiry = Date.now() + 1000 * 60 * 30`
(line 108) and `now2` the `Date.now()` of the comparison
`Date.now() > tokenExpiry.getTime()` (line 109).  Returns the resulting
token and the number of refresh network calls made. -/
def jwtCallback (now1 now2 : Nat) (user : Option SignInUser)
    (account : Option Account) (token : JwtToken)
    (net : String → RouteRefreshResult) : JwtToken × Nat :=
  let token1 :=
    match user, account with
    | some u, some a =>
      if a.provider = "credentials" then
        { token with
            accessToken := some u.accessToken
            refreshToken := some u.refreshToken
            csrfToken := some u.csrfToken
            id := some u.id
            email := some u.email
            name := some u.name
            role := some u.role
            permissions := u.permissions
            provider := some "credentials" }
      else token
    | _, _ => token
  let tokenExpiry := now1 + 1000 * 60 * 30
  if now2 > tokenExpiry then
    match token1.refreshToken with
    | some rt =>
      match net rt with
      | .success a r c =>
        ({ token1 with
            accessToken := some a
            refreshToken := some r
            csrfToken := some c }, 1)
      | .failure => ({ token1 with error := some "RefreshAccessTokenError" }, 1)
    | none => (token1, 0)
  else (token1, 0)

/-- Claim C7: the expiry check of the `jwt` callback compares `Date.now()`
against `Date.now() + 30min` taken moments earlier, so as long as fewer
than 30 minutes elapse between the two adjacent `Date.now()` evaluations
the condition is false: no refresh network call is ever made, no rotated
tokens are ever stored, and the `error` field is left unchanged — the
proactive-refresh branch is dead code, however long ago the access token
was issued. -/
theorem jwt_callback_never_refreshes
    (now1 now2 : Nat) (user : Option SignInUser) (account : Option Account)
    (token : JwtToken) (net : String → RouteRefreshResult)
    (hclock : now2 ≤ now1 + 1000 * 60 * 30) :
    (jwtCallback now1 now2 user account token net).2 = 0 ∧
      (jwtCallback now1 now2 user account token net).1.error
        = token.error := by
  have hlt : ¬ now1 + 1000 * 60 * 30 < now2 := not_lt.mpr hclock
  cases user with
  | none => simp [jwtCallback, hlt]
  | some u =>
    cases account with
    | none => simp [jwtCallback, hlt]
    | some a =>
      by_cases hp : a.provider = "credentials" <;>
        simp [jwtCallback, hlt, hp]

/-- Witness for `jwt_callback_never_refreshes`: a token far past any real
expiry, holding a refresh token, with a network stub that would succeed —
still zero refresh calls are made. -/
theorem jwt_callback_never_refreshes_witness :
    let token : JwtToken :=
      { accessToken := some "acc0", refreshToken := some "ref0"
        csrfToken := some "csrf0", id := some "u1"
        email := some "a@b.com", name := some "Ann", role := some "user"
        permissions := [], provider := some "credentials", error := none }
    let net : String → RouteRefreshResult :=
      fun _ => .success "acc1" "ref1" "csrf1"
    (jwtCallback 1700000000000 1700000000000 none none token net).2 = 0 ∧
      (jwtCallback 1700000000000 1700000000000 none none token net).1.error
        = token.error :=
  jwt_callback_never_refreshes 1700000000000 1700000000000 none none _ _
    (Nat.le_add_right _ _)

end NextAuthRoute

namespace OAuthCoordinator

/-! The OAuth redirect coordinator.  The repository delegates the redirect
handshake to a backend handler (`/api/auth/oauth/<provider>`, reached from
the route's `signIn` callback) whose source is not among the available
files, so the coordinator is modelled from the specification (spec §4.4). -/

/-- Modelled from the spec: the record written by `beginRedirect(provider)`
— the chosen provider together with a single-use correlation value — since
the backend OAuth handler implementing the handshake is not among the
available sources. -/
structure Pending where
  provider : String
  correlation : String
deriving DecidableEq, Repr

/-- Failures of the resume step, per the spec's error taxonomy:
`CorrelationMismatch` (possible forged callback) or `ProviderError`. -/
inductive OAuthFailure where
  | correlationMismatch
  | providerError
deriving DecidableEq, Repr

/-- Result of `resumeFromCallback`: a completed session handed to the
scheduler's `Authenticated` transition, or a failure. -/
inductive ResumeResult where
  | success (sess : Auth.Session)
  | failed (e : OAuthFailure)
deriving DecidableEq, Repr

/-- Modelled from the spec: `beginRedirect(provider)` records the provider
and a single-use correlation value before handing control to the
provider's sign-in surface. -/
def beginRedirect (provider correlation : String) : Pending :=
  ⟨provider, correlation⟩

/-- Modelled from the spec: `resumeFromCallback(provider, code,
correlationValue)` validates the correlation value against the one stored
by `beginRedirect`; a mismatch is fatal to the resume attempt and must not
create a session; on a match the code is exchanged via the AuthGateway
(`exchange`), whose failure surfaces as a failed result. -/
def resumeFromCallback (pending : Pending) (code correlationValue : String)
    (exchange : String → String → Except OAuthFailure Auth.Session) :
    ResumeResult :=
  if correlationValue = pending.correlation then
    match exchange pending.provider code with
    | .ok sess => .success sess
    | .error e => .failed e
  else .failed .correlationMismatch

/-- Claim C6: resuming the OAuth redirect flow with a correlation value
different from the one recorded by `beginRedirect` surfaces
`CorrelationMismatch` and never creates a session, whatever the exchange
endpoint would have answered. -/
theorem resume_with_wrong_correlation_never_creates_session
    (provider corr corrGiven code : String)
    (exchange : String → String → Except OAuthFailure Auth.Session)
    (h : corrGiven ≠ corr) :
    resumeFromCallback (beginRedirect provider corr) code corrGiven exchange
        = .failed .correlationMismatch ∧
      ∀ sess : Auth.Session,
        resumeFromCallback (beginRedirect provider corr) code corrGiven
          exchange ≠ .success sess := by
  constructor
  · simp [resumeFromCallback, beginRedirect, h]
  · intro sess
    simp [resumeFromCallback, beginRedirect, h]

/-- Witness for `resume_with_wrong_correlation_never_creates_session`:
a forged callback carrying correlation value `c2` against a recorded `c1`,
with an exchange endpoint that would happily return a session. -/
theorem resume_with_wrong_correlation_never_creates_session_witness :
    resumeFromCallback (beginRedirect "google" "c1") "code0" "c2"
        (fun _ _ => .ok ⟨"acc1", "ref1", Auth.demoUser⟩)
        = .failed .correlationMismatch ∧
      ∀ sess : Auth.Session,
        resumeFromCallback (beginRedirect "google" "c1") "code0" "c2"
          (fun _ _ => .ok ⟨"acc1", "ref1", Auth.demoUser⟩)
          ≠ .success sess :=
  resume_with_wrong_correlation_never_creates_session "google" "c1" "c2"
    "code0" _ (by decide)

end OAuthCoordinator
